import Mathlib

/-!
Shallow embedding of the resvg drawing-backend C adapters:
`src/bindings/resvg-qt/cpp/qt_capi.cpp`,
`src/resvg-skia/skia-bindings/skia_capi.cpp` (the newer Skia adapter), and
`src/resvg-skia/cpp/skia_capi.cpp` (the legacy Skia adapter).

C `double` / `float` (`SkScalar`) values are modelled as exact rationals `ℚ`;
the widening/narrowing casts between them are modelled as exact (the identity).
Pointer-returning fallible constructors are modelled as `Option`-returning
functions (`none` is the null handle).
-/

set_option autoImplicit false

namespace Resvg

/-! ## 2D transforms

Qt stores a `QTransform` as the row-major 3x3 matrix entries
`m11 m12 / m21 m22 / m31 m32` (last column fixed), mapping a point by
`x' = m11*x + m21*y + m31`, `y' = m12*x + m22*y + m32`.
Skia stores an `SkMatrix` as `scaleX skewX transX / skewY scaleY transY`
(perspective row fixed at `0 0 1`), mapping a point by
`x' = scaleX*x + skewX*y + transX`, `y' = skewY*x + scaleY*y + transY`.
-/

/-- The six raw coefficients `(a, b, c, d, e, f)` exchanged across the C ABI
(`qtc_transform` in `qt_capi.hpp`, `skia_matrix` in `skia_capi.hpp`). -/
structure CoeffTuple where
  (a b c d e f : ℚ)
deriving DecidableEq, Repr

/-- Qt's `QTransform` value: entries `m11 m12 m21 m22 m31 m32` of the affine
matrix (the `m13 m23 m33` column is fixed at `0 0 1`). -/
structure QTransform where
  (m11 m12 m21 m22 m31 m32 : ℚ)
deriving DecidableEq, Repr

/-- Qt's point map: `x' = m11*x + m21*y + dx`, `y' = m12*x + m22*y + dy`. -/
def QTransform.map (t : QTransform) (p : ℚ × ℚ) : ℚ × ℚ :=
  (t.m11 * p.1 + t.m21 * p.2 + t.m31, t.m12 * p.1 + t.m22 * p.2 + t.m32)

/-- `qtc_qtransform_create()`: `new QTransform()`, the identity. -/
def qtc_qtransform_create : QTransform :=
  ⟨1, 0, 0, 1, 0, 0⟩

/-- `qtc_qtransform_create_from(a,b,c,d,e,f)`: Qt's
`QTransform(m11, m12, m21, m22, dx, dy)` constructor applied positionally. -/
def qtc_qtransform_create_from (a b c d e f : ℚ) : QTransform :=
  ⟨a, b, c, d, e, f⟩

/-- `qtc_qtransform_get_data`: reads back
`a = m11, b = m12, c = m21, d = m22, e = m31, f = m32`. -/
def qtc_qtransform_get_data (t : QTransform) : CoeffTuple :=
  ⟨t.m11, t.m12, t.m21, t.m22, t.m31, t.m32⟩

/-- Skia's `SkMatrix` value: the six affine entries
(the perspective row is fixed at `0 0 1` by both adapters). -/
structure SkMatrix where
  (scaleX skewX transX skewY scaleY transY : ℚ)
deriving DecidableEq, Repr

/-- Skia's point map: `x' = scaleX*x + skewX*y + transX`,
`y' = skewY*x + scaleY*y + transY`. -/
def SkMatrix.map (m : SkMatrix) (p : ℚ × ℚ) : ℚ × ℚ :=
  (m.scaleX * p.1 + m.skewX * p.2 + m.transX,
   m.skewY * p.1 + m.scaleY * p.2 + m.transY)

namespace SkiaBindings

/-- `skiac_matrix_create_from(a,b,c,d,e,f)` in
`src/resvg-skia/skia-bindings/skia_capi.cpp`:
`setAll(a, c, e, b, d, f, 0, 0, 1)`, i.e.
`scaleX = a, skewX = c, transX = e, skewY = b, scaleY = d, transY = f`. -/
def skiac_matrix_create_from (a b c d e f : ℚ) : SkMatrix :=
  { scaleX := a, skewX := c, transX := e, skewY := b, scaleY := d, transY := f }

/-- `skiac_matrix_get_data` in `src/resvg-skia/skia-bindings/skia_capi.cpp`:
`a = getScaleX, b = getSkewY, c = getSkewX, d = getScaleY,
e = getTranslateX, f = getTranslateY`. -/
def skiac_matrix_get_data (m : SkMatrix) : CoeffTuple :=
  ⟨m.scaleX, m.skewY, m.skewX, m.scaleY, m.transX, m.transY⟩

end SkiaBindings

namespace SkiaLegacy

/-- `skiac_matrix_create_from(a,b,c,d,e,f)` in
`src/resvg-skia/cpp/skia_capi.cpp`: `setAll(a, c, e, b, d, f, 0, 0, 1)`,
identical to the skia-bindings adapter. -/
def skiac_matrix_create_from (a b c d e f : ℚ) : SkMatrix :=
  { scaleX := a, skewX := c, transX := e, skewY := b, scaleY := d, transY := f }

/-- `skiac_matrix_get_data` in `src/resvg-skia/cpp/skia_capi.cpp`:
`a = getScaleX, b = getSkewX, c = getSkewY, d = getScaleY,
e = getTranslateX, f = getTranslateY` — note `b` is read from `skewX`
and `c` from `skewY`, the opposite of the skia-bindings adapter. -/
def skiac_matrix_get_data (m : SkMatrix) : CoeffTuple :=
  ⟨m.scaleX, m.skewX, m.skewY, m.scaleY, m.transX, m.transY⟩

end SkiaLegacy

/-! ## Qt pen (`qtc_qpen_*` in `src/bindings/resvg-qt/cpp/qt_capi.cpp`) -/

/-- Pen cap styles, values as in `qt_capi.hpp` / `qnamespace.h`. -/
inductive PenCapStyle where
  | flat
  | square
  | round
deriving DecidableEq, Repr

/-- Pen join styles, values as in `qt_capi.hpp` / `qnamespace.h`. -/
inductive PenJoinStyle where
  | bevel
  | round
  | miter
deriving DecidableEq, Repr

/-- An RGBA color with 8-bit channels. -/
structure Color where
  (r g b a : ℕ)
deriving DecidableEq, Repr

/-- The mutable state of a `QPen` that the `qtc_qpen_*` setters touch. -/
structure QPen where
  color : Color
  width : ℚ
  capStyle : PenCapStyle
  joinStyle : PenJoinStyle
  miterLimit : ℚ
  dashOffset : ℚ
  dashPattern : List ℚ
deriving DecidableEq, Repr

/-- Qt's `qFuzzyIsNull` for a `double`: `qAbs(d) <= 0.000000000001`.
Modelled from Qt's `qglobal.h` implementation (Qt itself is not under
`src/`); the threshold is exactly `10⁻¹²`. -/
def qFuzzyIsNull (d : ℚ) : Bool :=
  |d| ≤ 1 / 1000000000000

/-- `qtc_qpen_set_color`. -/
def qtc_qpen_set_color (p : QPen) (r g b a : ℕ) : QPen :=
  { p with color := ⟨r, g, b, a⟩ }

/-- `qtc_qpen_set_line_cap`. -/
def qtc_qpen_set_line_cap (p : QPen) (s : PenCapStyle) : QPen :=
  { p with capStyle := s }

/-- `qtc_qpen_set_line_join`. -/
def qtc_qpen_set_line_join (p : QPen) (s : PenJoinStyle) : QPen :=
  { p with joinStyle := s }

/-- `qtc_qpen_set_width`: `setWidthF(width)` and nothing else. -/
def qtc_qpen_set_width (p : QPen) (width : ℚ) : QPen :=
  { p with width := width }

/-- `qtc_qpen_set_miter_limit`. -/
def qtc_qpen_set_miter_limit (p : QPen) (limit : ℚ) : QPen :=
  { p with miterLimit := limit }

/-- `qtc_qpen_set_dash_offset`: reads the pen's current width, replaces it by
`1` when it is exactly `0`, and stores `offset / w`. -/
def qtc_qpen_set_dash_offset (p : QPen) (offset : ℚ) : QPen :=
  let w := if p.width = 0 then 1 else p.width
  { p with dashOffset := offset / w }

/-- `qtc_qpen_set_dash_array`: reads the pen's current width, replaces it by
`1` when `qFuzzyIsNull(w)`, and stores each `array[i] / w`. -/
def qtc_qpen_set_dash_array (p : QPen) (array : List ℚ) : QPen :=
  let w := if qFuzzyIsNull p.width then 1 else p.width
  { p with dashPattern := array.map (fun v => v / w) }

/-! ## Paths

`qtc_qpainterpath_*` builds a `QPainterPath`; `skiac_path_*` builds an
`SkPath`. Both adapters create the path with the toolkit's default
constructor and never touch the fill rule until the explicit setter. -/

/-- A path segment as issued through the C ABI. -/
inductive PathSeg where
  | moveTo (x y : ℚ)
  | lineTo (x y : ℚ)
  | cubicTo (x1 y1 x2 y2 x y : ℚ)
  | close
deriving DecidableEq, Repr

/-- Qt fill rules, in the order of `enum FillRule` in `qt_capi.hpp`
(`OddEvenFill = 0`, `WindingFill = 1`). -/
inductive QtFillRule where
  | oddEven
  | winding
deriving DecidableEq, Repr

/-- Skia fill types, in the order of `enum class FillType` in
`skia_capi.hpp` (`Winding = 0`, `EvenOdd = 1`). -/
inductive SkFillType where
  | winding
  | evenOdd
deriving DecidableEq, Repr

/-- A `QPainterPath` value: accumulated segments and the active fill rule. -/
structure QPainterPathVal where
  elements : List PathSeg
  fillRule : QtFillRule
deriving DecidableEq, Repr

/-- `qtc_qpainterpath_create()`: `new QPainterPath()`. Modelled from Qt
documentation for the part not under `src/`: a default-constructed
`QPainterPath` is empty and its fill rule is `Qt::OddEvenFill`. -/
def qtc_qpainterpath_create : QPainterPathVal :=
  { elements := [], fillRule := QtFillRule.oddEven }

/-- `qtc_qpainterpath_move_to`. -/
def qtc_qpainterpath_move_to (p : QPainterPathVal) (x y : ℚ) : QPainterPathVal :=
  { p with elements := p.elements ++ [PathSeg.moveTo x y] }

/-- `qtc_qpainterpath_line_to`. -/
def qtc_qpainterpath_line_to (p : QPainterPathVal) (x y : ℚ) : QPainterPathVal :=
  { p with elements := p.elements ++ [PathSeg.lineTo x y] }

/-- `qtc_qpainterpath_curve_to`. -/
def qtc_qpainterpath_curve_to (p : QPainterPathVal) (x1 y1 x2 y2 x y : ℚ) :
    QPainterPathVal :=
  { p with elements := p.elements ++ [PathSeg.cubicTo x1 y1 x2 y2 x y] }

/-- `qtc_qpainterpath_close_path`. -/
def qtc_qpainterpath_close_path (p : QPainterPathVal) : QPainterPathVal :=
  { p with elements := p.elements ++ [PathSeg.close] }

/-- `qtc_qpainterpath_set_fill_rule`. -/
def qtc_qpainterpath_set_fill_rule (p : QPainterPathVal) (rule : QtFillRule) :
    QPainterPathVal :=
  { p with fillRule := rule }

/-- An `SkPath` value: accumulated segments and the active fill type. -/
structure SkPathVal where
  elements : List PathSeg
  fillType : SkFillType
deriving DecidableEq, Repr

namespace SkiaBindings

/-- `skiac_path_create()` in `src/resvg-skia/skia-bindings/skia_capi.cpp`:
`new SkPath()`. Modelled from Skia documentation for the part not under
`src/`: a default-constructed `SkPath` is empty with fill type
`kWinding_FillType`. -/
def skiac_path_create : SkPathVal :=
  { elements := [], fillType := SkFillType.winding }

/-- `skiac_path_set_fill_type`. -/
def skiac_path_set_fill_type (p : SkPathVal) (t : SkFillType) : SkPathVal :=
  { p with fillType := t }

end SkiaBindings

namespace SkiaLegacy

/-- `skiac_path_create()` in `src/resvg-skia/cpp/skia_capi.cpp`:
`new SkPath()`, identical to the skia-bindings adapter (empty path,
fill type `kWinding_FillType` per Skia's default). -/
def skiac_path_create : SkPathVal :=
  { elements := [], fillType := SkFillType.winding }

end SkiaLegacy

/-! ## Gradients -/

/-- Gradient spread modes, order as in `qt_capi.hpp` / `qbrush.h`. -/
inductive Spread where
  | pad
  | reflect
  | repeatSpread
deriving DecidableEq, Repr

/-- Qt gradient interpolation modes; the adapters force
`ComponentInterpolation` (interpolation on un-premultiplied components). -/
inductive QtInterpolationMode where
  | color
  | component
deriving DecidableEq, Repr

/-- A `QRadialGradient` value: center, center radius, focal point,
focal radius, stops, spread, interpolation mode. -/
structure QRadialGradientVal where
  (cx cy : ℚ)
  radius : ℚ
  (fx fy : ℚ)
  focalRadius : ℚ
  stops : List (ℚ × Color)
  spread : Spread
  interpolation : QtInterpolationMode
deriving DecidableEq, Repr

/-- `qtc_qradialgradient_create(cx, cy, fx, fy, r)`: calls Qt's
`QRadialGradient(cx, cy, r, fx, fy)` constructor and then forces
`ComponentInterpolation`. Modelled from Qt documentation for the part not
under `src/`: that constructor takes center, center radius and focal point,
and leaves the focal radius at `0`. -/
def qtc_qradialgradient_create (cx cy fx fy r : ℚ) : QRadialGradientVal :=
  { cx := cx, cy := cy, radius := r, fx := fx, fy := fy, focalRadius := 0,
    stops := [], spread := Spread.pad,
    interpolation := QtInterpolationMode.component }

/-- `qtc_qradialgradient_set_color_at`. -/
def qtc_qradialgradient_set_color_at (g : QRadialGradientVal) (offset : ℚ)
    (r gr b a : ℕ) : QRadialGradientVal :=
  { g with stops := g.stops ++ [(offset, ⟨r, gr, b, a⟩)] }

/-- `qtc_qradialgradient_set_spread`. -/
def qtc_qradialgradient_set_spread (g : QRadialGradientVal) (s : Spread) :
    QRadialGradientVal :=
  { g with spread := s }

/-- Skia tile modes, order as in `skia_capi.hpp`. -/
inductive TileMode where
  | clamp
  | repeatTile
  | mirror
deriving DecidableEq, Repr

/-- A two-point-conical Skia gradient shader: the full argument tuple of
`SkGradientShader::MakeTwoPointConical` as forwarded by the adapters. -/
structure SkTwoPointConicalShader where
  startPoint : ℚ × ℚ
  startRadius : ℚ
  endPoint : ℚ × ℚ
  endRadius : ℚ
  colors : List ℕ
  positions : List ℚ
  tileMode : TileMode
  flags : ℕ
  localMatrix : SkMatrix
deriving DecidableEq, Repr

namespace SkiaBindings

/-- `skiac_shader_make_two_point_conical_gradient` in
`src/resvg-skia/skia-bindings/skia_capi.cpp`: forwards start point, start
radius, end point, end radius, colors, positions, tile mode, flags and the
local matrix unchanged to `SkGradientShader::MakeTwoPointConical`. -/
def skiac_shader_make_two_point_conical_gradient (startPoint : ℚ × ℚ)
    (startRadius : ℚ) (endPoint : ℚ × ℚ) (endRadius : ℚ) (colors : List ℕ)
    (positions : List ℚ) (tileMode : TileMode) (flags : ℕ)
    (matrix : SkMatrix) : SkTwoPointConicalShader :=
  { startPoint := startPoint, startRadius := startRadius,
    endPoint := endPoint, endRadius := endRadius,
    colors := colors, positions := positions, tileMode := tileMode,
    flags := flags, localMatrix := matrix }

end SkiaBindings

namespace SkiaLegacy

/-- `skiac_shader_make_two_point_conical_gradient` in
`src/resvg-skia/cpp/skia_capi.cpp`: same forwarding as the skia-bindings
adapter (tile mode goes through the identity table `tileModes_`). -/
def skiac_shader_make_two_point_conical_gradient (startPoint : ℚ × ℚ)
    (startRadius : ℚ) (endPoint : ℚ × ℚ) (endRadius : ℚ) (colors : List ℕ)
    (positions : List ℚ) (tileMode : TileMode) (flags : ℕ)
    (matrix : SkMatrix) : SkTwoPointConicalShader :=
  { startPoint := startPoint, startRadius := startRadius,
    endPoint := endPoint, endRadius := endRadius,
    colors := colors, positions := positions, tileMode := tileMode,
    flags := flags, localMatrix := matrix }

end SkiaLegacy

/-! ## Fallible constructors

Every pointer-returning constructor is embedded as an `Option`-returning
function; `none` is the C null handle. The embedding parameterizes over the
toolkit results it branches on (allocation validity, decode results),
modelled from the spec where the toolkit itself is not under `src/`. -/

/-- A `QImage` value as allocated by `new QImage(w, h, format)`. -/
structure QImageVal where
  width : ℕ
  height : ℕ
  premultiplied : Bool
deriving DecidableEq, Repr

/-- Modelled from the spec (Qt's `QImage` is not under `src/`): an image
constructed with invalid dimensions — zero (or unrepresentable) — is a null
image. -/
def QImageVal.isNull (img : QImageVal) : Bool :=
  img.width = 0 || img.height = 0

/-- `qtc_qimage_create_rgba_premultiplied(width, height)`: constructs the
image, returns the null handle if `img->isNull()`, else the handle. -/
def qtc_qimage_create_rgba_premultiplied (width height : ℕ) : Option QImageVal :=
  let img : QImageVal := ⟨width, height, true⟩
  if img.isNull then none else some img

/-- `qtc_qimage_create_rgba(width, height)`: same with straight alpha. -/
def qtc_qimage_create_rgba (width height : ℕ) : Option QImageVal :=
  let img : QImageVal := ⟨width, height, false⟩
  if img.isNull then none else some img

/-- Skia alpha types used by the adapters. -/
inductive SkAlphaType where
  | premul
  | unpremul
deriving DecidableEq, Repr

/-- A decoded `SkImage` (result of `SkImage::MakeFromEncoded`). -/
structure SkImageVal where
  width : ℤ
  height : ℤ
deriving DecidableEq, Repr

/-- An `SkSurface` value: dimensions, alpha type, and the image content
drawn into it so far (`none` for a fresh surface). -/
structure SkSurfaceVal where
  width : ℤ
  height : ℤ
  alphaType : SkAlphaType
  content : Option SkImageVal
deriving DecidableEq, Repr

namespace SkiaLegacy

/-- The static helper `skiac_surface_create(width, height, alphaType)` in
`src/resvg-skia/cpp/skia_capi.cpp`: builds an `SkImageInfo` and calls
`SkSurface::MakeRaster`. Modelled from the spec (Skia is not under `src/`):
raster surface creation returns null exactly for invalid dimensions, i.e.
non-positive width or height. -/
def skiac_surface_create (width height : ℤ) (alphaType : SkAlphaType) :
    Option SkSurfaceVal :=
  if width ≤ 0 ∨ height ≤ 0 then none
  else some { width := width, height := height, alphaType := alphaType,
              content := none }

/-- `skiac_surface_create_rgba_premultiplied`. -/
def skiac_surface_create_rgba_premultiplied (width height : ℤ) :
    Option SkSurfaceVal :=
  skiac_surface_create width height SkAlphaType.premul

/-- `skiac_surface_create_rgba`. -/
def skiac_surface_create_rgba (width height : ℤ) : Option SkSurfaceVal :=
  skiac_surface_create width height SkAlphaType.unpremul

/-- `skiac_surface_create_data(data)`: decodes the bytes
(`SkImage::MakeFromEncoded`, passed here as its result `image`), creates a
premultiplied surface of the image's dimensions when decoding succeeded,
and draws the image into it when the surface was created. Null results
propagate at each step. -/
def skiac_surface_create_data (image : Option SkImageVal) :
    Option SkSurfaceVal :=
  match image with
  | none => none
  | some img =>
      match skiac_surface_create img.width img.height SkAlphaType.premul with
      | none => none
      | some s => some { s with content := some img }

/-- `skiac_surface_create_from_file(path)`: `SkData::MakeFromFileName`
(passed here as its result `fileData`, `none` for a missing/unreadable
file) followed by `skiac_surface_create_data`; a missing file returns the
null handle directly. The decode step is passed as the function `dec`. -/
def skiac_surface_create_from_file (dec : List ℕ → Option SkImageVal)
    (fileData : Option (List ℕ)) : Option SkSurfaceVal :=
  match fileData with
  | some d => skiac_surface_create_data (dec d)
  | none => none

end SkiaLegacy

/-! ## Surface pixel readback (`src/resvg-skia/cpp/skia_capi.cpp`)

The heap of live `new char[]` buffers is modelled as a list of allocation
identifiers; `delete[]` removes one. `skiac_surface_data.ptr` is `none`
for `nullptr`, `some id` for a pointer to buffer `id`. -/

/-- The `skiac_surface_data` out-struct as used by
`src/resvg-skia/cpp/skia_capi.cpp`: `ptr`, `size`, `allocated`. -/
structure SkiaSurfaceData where
  ptr : Option ℕ
  size : ℕ
  allocated : Bool
deriving DecidableEq, Repr

/-- `skiac_surface_read_pixels(surface, data)`.
`peek` is the result of `canvas->peekPixels` (`some (addr, safeSize)` on
success), `readOk` the result of the fallback `canvas->readPixels`,
`newId` the identifier of the buffer allocated by `new char[size]` and
`sz` that buffer's computed size; `heap` is the set of live buffers.
Returns `(success, data, heap)`:
the struct is first zeroed; on `peekPixels` success the pixmap address is
exposed with `allocated = false`; otherwise a buffer is allocated, and it
is either handed to the caller with `allocated = true` or, when
`readPixels` fails, freed again with the struct left zeroed. -/
def skiac_surface_read_pixels (peek : Option (ℕ × ℕ)) (readOk : Bool)
    (newId : ℕ) (sz : ℕ) (heap : List ℕ) :
    Bool × SkiaSurfaceData × List ℕ :=
  let zeroed : SkiaSurfaceData := ⟨none, 0, false⟩
  match peek with
  | some (addr, safeSize) => (true, ⟨some addr, safeSize, false⟩, heap)
  | none =>
      let heap1 := newId :: heap
      if readOk then (true, ⟨some newId, sz, true⟩, heap1)
      else (false, zeroed, heap1.erase newId)

/-- `skiac_surface_data_delete(data)`: `delete[]` the buffer when
`data->allocated && data->ptr`, then reset all three fields. -/
def skiac_surface_data_delete (d : SkiaSurfaceData) (heap : List ℕ) :
    SkiaSurfaceData × List ℕ :=
  let heap1 :=
    match d.ptr, d.allocated with
    | some p, true => heap.erase p
    | _, _ => heap
  (⟨none, 0, false⟩, heap1)

/-! ## Brushes -/

/-- A `QLinearGradient` value. -/
structure QLinearGradientVal where
  (x1 y1 x2 y2 : ℚ)
  stops : List (ℚ × Color)
  spread : Spread
  interpolation : QtInterpolationMode
deriving DecidableEq, Repr

/-- `qtc_qlineargradient_create(x1, y1, x2, y2)`: the two endpoints, with
`ComponentInterpolation` forced. -/
def qtc_qlineargradient_create (x1 y1 x2 y2 : ℚ) : QLinearGradientVal :=
  { x1 := x1, y1 := y1, x2 := x2, y2 := y2, stops := [],
    spread := Spread.pad, interpolation := QtInterpolationMode.component }

/-- A `QBrush` value: one active paint kind at a time. -/
inductive QBrushVal where
  | solid (c : Color)
  | linearGradient (g : QLinearGradientVal)
  | radialGradient (g : QRadialGradientVal)
  | texture (img : QImageVal)
deriving DecidableEq, Repr

/-- Composition modes, in the order of `enum CompositionMode` in
`qt_capi.hpp` (a direct copy from Qt's `qpainter.h`). -/
inductive CompositionMode where
  | sourceOver
  | destinationOver
  | clear
  | source
  | destination
  | sourceIn
  | destinationIn
  | sourceOut
  | destinationOut
  | sourceAtop
  | destinationAtop
  | xor
  | plus
  | multiply
  | screen
  | overlay
  | darken
  | lighten
  | colorDodge
  | colorBurn
  | hardLight
  | softLight
  | difference
  | exclusion
deriving DecidableEq, Repr

/-! ## Qt painter (`qtc_qpainter_*`) and its draw calls (C9) -/

/-- The pixel grid of a canvas, as a map from coordinates to a color. -/
def QtCanvas : Type := ℕ × ℕ → Color

/-- The `QPainter` state the claims observe: attached pen and brush
(`none` is `Qt::NoPen` / `Qt::NoBrush`), the two render hints, and the
pixel buffer of the device it paints on. -/
structure QPainterVal where
  pen : Option QPen
  brush : Option QBrushVal
  antialiasing : Bool
  smoothPixmapTransform : Bool
  canvas : QtCanvas

/-- `qtc_qpainter_create(img)`: `begin(img)`, `setPen(Qt::NoPen)`,
`setBrush(Qt::NoBrush)`, and both render hints
(`Antialiasing`, `SmoothPixmapTransform`) set to `true`. -/
def qtc_qpainter_create (img : QtCanvas) : QPainterVal :=
  { pen := none, brush := none, antialiasing := true,
    smoothPixmapTransform := true, canvas := img }

/-- `qtc_qpainter_set_pen` / `qtc_qpainter_reset_pen` (`none`). -/
def qtc_qpainter_set_pen (p : QPainterVal) (pen : Option QPen) : QPainterVal :=
  { p with pen := pen }

/-- `qtc_qpainter_set_brush` / `qtc_qpainter_reset_brush` (`none`). -/
def qtc_qpainter_set_brush (p : QPainterVal) (brush : Option QBrushVal) :
    QPainterVal :=
  { p with brush := brush }

/-- A draw call issued against the painter before any paint is attached. -/
inductive QtDrawOp where
  | drawPath (path : QPainterPathVal)
  | drawRect (x y w h : ℚ)

/-- The toolkit's rasterizers for filling and stroking, left abstract: the
claims hold for every choice of these functions. -/
structure QtRasterizer where
  fillPath : QBrushVal → QPainterPathVal → QtCanvas → QtCanvas
  strokePath : QPen → QPainterPathVal → QtCanvas → QtCanvas
  fillRect : QBrushVal → ℚ → ℚ → ℚ → ℚ → QtCanvas → QtCanvas
  strokeRect : QPen → ℚ → ℚ → ℚ → ℚ → QtCanvas → QtCanvas

/-- `qtc_qpainter_draw_path` / `qtc_qpainter_draw_rect`. Modelled from the
spec for the Qt rasterization step not under `src/`: a draw call fills the
shape with the current brush when one is attached, then strokes it with
the current pen when one is attached; with `Qt::NoBrush` and `Qt::NoPen`
neither step runs. -/
def qtc_qpainter_draw (R : QtRasterizer) (p : QPainterVal) (op : QtDrawOp) :
    QPainterVal :=
  match op with
  | QtDrawOp.drawPath path =>
      let c1 := match p.brush with
        | some b => R.fillPath b path p.canvas
        | none => p.canvas
      let c2 := match p.pen with
        | some pen => R.strokePath pen path c1
        | none => c1
      { p with canvas := c2 }
  | QtDrawOp.drawRect x y w h =>
      let c1 := match p.brush with
        | some b => R.fillRect b x y w h p.canvas
        | none => p.canvas
      let c2 := match p.pen with
        | some pen => R.strokeRect pen x y w h c1
        | none => c1
      { p with canvas := c2 }

/-- Runs a sequence of draw calls. -/
def qtc_qpainter_run_draws (R : QtRasterizer) (p : QPainterVal)
    (ops : List QtDrawOp) : QPainterVal :=
  ops.foldl (qtc_qpainter_draw R) p

/-! ## The DrawingContext state machine (C5)

Modelled from the spec (the toolkit-internal state stacks of
`QPainter::save` / `SkCanvas::save` behind `qtc_qpainter_save` and
`skiac_canvas_save` are not under `src/`): `save()` pushes the observable
state {transform, clip, pen, brush, opacity, composition mode} as one
atomic snapshot onto a stack, `restore()` pops it; the mutation calls
touch only the observable state, never the stack. -/

/-- An active clip region: a rect or a path (`setClipRect` /
`setClipPath`). -/
inductive ClipVal where
  | rect (x y w h : ℚ)
  | path (p : QPainterPathVal)
deriving DecidableEq, Repr

/-- The observable DrawingContext state: the six components the spec's
save/restore contract covers. -/
structure PainterState where
  transform : QTransform
  clip : Option ClipVal
  pen : Option QPen
  brush : Option QBrushVal
  opacity : ℚ
  compMode : CompositionMode
deriving DecidableEq, Repr

/-- Row-vector matrix product of the augmented 3x3 matrices: `t.mul u`
maps a point by `t` and then by `u`. -/
def QTransform.mul (t u : QTransform) : QTransform :=
  { m11 := t.m11 * u.m11 + t.m12 * u.m21
    m12 := t.m11 * u.m12 + t.m12 * u.m22
    m21 := t.m21 * u.m11 + t.m22 * u.m21
    m22 := t.m21 * u.m12 + t.m22 * u.m22
    m31 := t.m31 * u.m11 + t.m32 * u.m21 + u.m31
    m32 := t.m31 * u.m12 + t.m32 * u.m22 + u.m32 }

/-- The DrawingContext commands between a `save` and its `restore`:
transform mutations (`translate`, `scale`, `setTransform` with or without
combining), clip mutations (`setClipRect`, `setClipPath`, `resetClip`),
and paint mutations (`setPen`, `setBrush`, `setOpacity`,
`setCompositionMode`), plus `save` and `restore` themselves. -/
inductive PainterOp where
  | translate (dx dy : ℚ)
  | scale (sx sy : ℚ)
  | setTransform (t : QTransform) (combine : Bool)
  | resetTransform
  | setClipRect (x y w h : ℚ)
  | setClipPath (p : QPainterPathVal)
  | resetClip
  | setPen (p : Option QPen)
  | setBrush (b : Option QBrushVal)
  | setOpacity (o : ℚ)
  | setCompositionMode (m : CompositionMode)
  | save
  | restore

/-- Whether an op is a plain mutation (neither `save` nor `restore`). -/
def PainterOp.isMutation : PainterOp → Bool
  | PainterOp.save => false
  | PainterOp.restore => false
  | _ => true

/-- The effect of a mutation on the observable state (`save`/`restore`
have no observable effect of their own and are mapped to the identity). -/
def PainterOp.applyMutation : PainterOp → PainterState → PainterState
  | PainterOp.translate dx dy, s =>
      { s with transform :=
          QTransform.mul ⟨1, 0, 0, 1, dx, dy⟩ s.transform }
  | PainterOp.scale sx sy, s =>
      { s with transform :=
          QTransform.mul ⟨sx, 0, 0, sy, 0, 0⟩ s.transform }
  | PainterOp.setTransform t combine, s =>
      { s with transform :=
          if combine then QTransform.mul t s.transform else t }
  | PainterOp.resetTransform, s =>
      { s with transform := qtc_qtransform_create }
  | PainterOp.setClipRect x y w h, s => { s with clip := some (ClipVal.rect x y w h) }
  | PainterOp.setClipPath p, s => { s with clip := some (ClipVal.path p) }
  | PainterOp.resetClip, s => { s with clip := none }
  | PainterOp.setPen p, s => { s with pen := p }
  | PainterOp.setBrush b, s => { s with brush := b }
  | PainterOp.setOpacity o, s => { s with opacity := o }
  | PainterOp.setCompositionMode m, s => { s with compMode := m }
  | PainterOp.save, s => s
  | PainterOp.restore, s => s

/-- A DrawingContext: the observable state plus the save stack. -/
structure Painter where
  state : PainterState
  stack : List PainterState
deriving DecidableEq, Repr

/-- One step of the DrawingContext state machine: `save` pushes the
observable state, `restore` pops it (a `restore` with an empty stack is a
no-op, matching the toolkits' bottom-of-stack guard), and every other op
mutates only the observable state. -/
def Painter.step (p : Painter) (op : PainterOp) : Painter :=
  match op with
  | PainterOp.save => ⟨p.state, p.state :: p.stack⟩
  | PainterOp.restore =>
      match p.stack with
      | [] => p
      | s :: rest => ⟨s, rest⟩
  | _ => ⟨op.applyMutation p.state, p.stack⟩

/-- Runs a sequence of DrawingContext commands. -/
def Painter.run (p : Painter) (ops : List PainterOp) : Painter :=
  ops.foldl Painter.step p

/-- The command sequences with balanced `save`/`restore` nesting: empty,
a plain mutation followed by a balanced sequence, or a balanced block
`save; body; restore` followed by a balanced sequence. -/
inductive BalancedOps : List PainterOp → Prop where
  | nil : BalancedOps []
  | mutStep (op : PainterOp) {rest : List PainterOp} (h : op.isMutation = true)
      (hr : BalancedOps rest) : BalancedOps (op :: rest)
  | block {body rest : List PainterOp} (hb : BalancedOps body)
      (hr : BalancedOps rest) :
      BalancedOps (PainterOp.save :: (body ++ PainterOp.restore :: rest))

/-! ## Concrete values used by closed statements -/

/-- The width guard of `qtc_qpen_set_dash_array`: the width actually
divided by, `1` when `qFuzzyIsNull` holds. -/
def qtNormWidth (w : ℚ) : ℚ :=
  if qFuzzyIsNull w then 1 else w

/-- A pen whose stroke width is the nonzero value `10⁻¹³`
(below Qt's `qFuzzyIsNull` threshold of `10⁻¹²`). -/
def penTiny : QPen :=
  { color := ⟨0, 0, 0, 255⟩, width := 1 / 10000000000000,
    capStyle := PenCapStyle.flat, joinStyle := PenJoinStyle.miter,
    miterLimit := 4, dashOffset := 0, dashPattern := [] }

/-- A pen with stroke width `1`. -/
def penUnit : QPen :=
  { color := ⟨0, 0, 0, 255⟩, width := 1,
    capStyle := PenCapStyle.flat, joinStyle := PenJoinStyle.miter,
    miterLimit := 4, dashOffset := 0, dashPattern := [] }

/-- A concrete DrawingContext in its initial state. -/
def demoPainter : Painter :=
  { state :=
      { transform := qtc_qtransform_create, clip := none, pen := none,
        brush := none, opacity := 1, compMode := CompositionMode.sourceOver },
    stack := [] }

/-- A concrete balanced command sequence containing a nested
save/restore block. -/
def demoBody : List PainterOp :=
  [PainterOp.setOpacity (1 / 2), PainterOp.save,
   PainterOp.setPen (some penUnit), PainterOp.restore,
   PainterOp.translate 1 2]

/-! ## Theorems -/

/-- C1: fails as stated. In the legacy Skia adapter
(`src/resvg-skia/cpp/skia_capi.cpp`), creating a matrix from
`(1, 2, 3, 4, 5, 6)` and reading the coefficients back yields
`(1, 3, 2, 4, 5, 6)`: `skiac_matrix_get_data` reads `b` from `getSkewX`
and `c` from `getSkewY`, the transpose of what `skiac_matrix_create_from`
stored. -/
theorem C1_counterexample :
    SkiaLegacy.skiac_matrix_get_data (SkiaLegacy.skiac_matrix_create_from 1 2 3 4 5 6)
      ≠ (⟨1, 2, 3, 4, 5, 6⟩ : CoeffTuple) := by
  decide

/-- C1 (amended): the round trip `get_data ∘ create_from` is the identity
on `(a, b, c, d, e, f)` in the Qt adapter and in the skia-bindings
adapter, and in both of those `create_from` realizes the convention
`x' = a·x + c·y + e`, `y' = b·x + d·y + f`; the legacy Skia adapter's
read-back instead returns `(a, c, b, d, e, f)` — `b` and `c` swapped —
though its `create_from` follows the same convention. -/
theorem C1_roundtrip (a b c d e f : ℚ) :
    qtc_qtransform_get_data (qtc_qtransform_create_from a b c d e f)
        = ⟨a, b, c, d, e, f⟩ ∧
    SkiaBindings.skiac_matrix_get_data
        (SkiaBindings.skiac_matrix_create_from a b c d e f)
        = ⟨a, b, c, d, e, f⟩ ∧
    SkiaLegacy.skiac_matrix_get_data
        (SkiaLegacy.skiac_matrix_create_from a b c d e f)
        = ⟨a, c, b, d, e, f⟩ ∧
    (∀ x y : ℚ, (qtc_qtransform_create_from a b c d e f).map (x, y)
        = (a * x + c * y + e, b * x + d * y + f)) ∧
    (∀ x y : ℚ, (SkiaBindings.skiac_matrix_create_from a b c d e f).map (x, y)
        = (a * x + c * y + e, b * x + d * y + f)) ∧
    (∀ x y : ℚ, (SkiaLegacy.skiac_matrix_create_from a b c d e f).map (x, y)
        = (a * x + c * y + e, b * x + d * y + f)) :=
  ⟨rfl, rfl, rfl, fun _ _ => rfl, fun _ _ => rfl, fun _ _ => rfl⟩

/-- C2: fails as stated. For a pen of (nonzero) width `10⁻¹³`,
`qtc_qpen_set_dash_array` stores `[1]` for the raw array `[1]` — it
normalizes by `1` because `qFuzzyIsNull` treats any width of magnitude at
most `10⁻¹²` as null — whereas the claim demands `1 / width = 10¹³`. -/
theorem C2_counterexample :
    penTiny.width ≠ 0 ∧
    (qtc_qpen_set_dash_array penTiny [1]).dashPattern = [1] ∧
    (1 : ℚ) ≠ 1 / penTiny.width := by
  have h : qFuzzyIsNull penTiny.width = true := by
    simp only [penTiny, qFuzzyIsNull, decide_eq_true_eq]
    rw [abs_of_pos (by norm_num)]
    norm_num
  refine ⟨by norm_num [penTiny], ?_, by norm_num [penTiny]⟩
  simp [qtc_qpen_set_dash_array, h]

/-- C2 (amended): `qtc_qpen_set_dash_offset` stores the raw offset divided
by the current width, treating a width of exactly `0` as `1`;
`qtc_qpen_set_dash_array` stores each raw value divided by the current
width, treating any width with `|w| ≤ 10⁻¹²` (Qt's `qFuzzyIsNull`) as
`1`. -/
theorem C2_normalization (p : QPen) (o : ℚ) (D : List ℚ) :
    (qtc_qpen_set_dash_offset p o).dashOffset
        = (if p.width = 0 then o else o / p.width) ∧
    (qtc_qpen_set_dash_array p D).dashPattern
        = D.map (fun v =>
            if |p.width| ≤ 1 / 1000000000000 then v else v / p.width) := by
  constructor
  · by_cases h : p.width = 0 <;>
      simp [qtc_qpen_set_dash_offset, h]
  · have harr : (fun v => v / (if qFuzzyIsNull p.width then 1 else p.width))
        = fun v =>
            if |p.width| ≤ 1 / 1000000000000 then v else v / p.width := by
      funext v
      simp only [qFuzzyIsNull, decide_eq_true_eq]
      split_ifs with h <;> simp
    simpa [qtc_qpen_set_dash_array] using congrArg (D.map ·) harr

/-- C3: fails as stated. Starting from a pen of width `1`, setting width
`2` and then dash array `[2]` stores the normalized pattern `[1]`, while
setting dash array `[2]` first and then width `2` stores `[2]`: the stored
values depend on the order of the two calls. -/
theorem C3_counterexample :
    qtc_qpen_set_dash_array (qtc_qpen_set_width penUnit 2) [2]
      ≠ qtc_qpen_set_width (qtc_qpen_set_dash_array penUnit [2]) 2 := by
  intro h
  have h2 := congrArg QPen.dashPattern h
  have ha : qFuzzyIsNull (2 : ℚ) = false := by
    simp only [qFuzzyIsNull, decide_eq_false_iff_not]
    rw [abs_of_pos (by norm_num)]
    norm_num
  have hb : qFuzzyIsNull (1 : ℚ) = false := by
    simp only [qFuzzyIsNull, decide_eq_false_iff_not]
    rw [abs_of_pos (by norm_num)]
    norm_num
  simp [qtc_qpen_set_dash_array, qtc_qpen_set_width, penUnit, ha, hb] at h2

/-- C3 (amended): the stored dash values are normalized by the width
current at the moment of the `setDashArray` call — `setWidth(w)` then
`setDashArray(D)` stores `D[i] / qtNormWidth w`, while `setDashArray(D)`
then `setWidth(w)` stores `D[i] / qtNormWidth w₀` for the pen's prior
width `w₀` — so the two orders coincide only when the two normalization
widths agree, not in general. -/
theorem C3_order_dependence (p : QPen) (w : ℚ) (D : List ℚ) :
    qtc_qpen_set_dash_array (qtc_qpen_set_width p w) D
      = { p with width := w,
                 dashPattern := D.map (fun v => v / qtNormWidth w) } ∧
    qtc_qpen_set_width (qtc_qpen_set_dash_array p D) w
      = { p with width := w,
                 dashPattern := D.map (fun v => v / qtNormWidth p.width) } :=
  ⟨rfl, rfl⟩

/-- C4: confirmed. `qtc_qpen_set_width` sets the width and leaves every
other pen field — in particular the already-stored normalized dash
pattern and dash offset — exactly as it was. -/
theorem C4_set_width_frame (p : QPen) (w : ℚ) :
    (qtc_qpen_set_width p w).width = w ∧
    (qtc_qpen_set_width p w).dashPattern = p.dashPattern ∧
    (qtc_qpen_set_width p w).dashOffset = p.dashOffset ∧
    (qtc_qpen_set_width p w).color = p.color ∧
    (qtc_qpen_set_width p w).capStyle = p.capStyle ∧
    (qtc_qpen_set_width p w).joinStyle = p.joinStyle ∧
    (qtc_qpen_set_width p w).miterLimit = p.miterLimit :=
  ⟨rfl, rfl, rfl, rfl, rfl, rfl, rfl⟩

theorem Painter.run_append (p : Painter) (l1 l2 : List PainterOp) :
    p.run (l1 ++ l2) = (p.run l1).run l2 := by
  simp [Painter.run, List.foldl_append]

theorem Painter.step_mutation (p : Painter) (op : PainterOp)
    (h : op.isMutation = true) :
    p.step op = ⟨op.applyMutation p.state, p.stack⟩ := by
  cases op <;> first
    | rfl
    | simp [PainterOp.isMutation] at h

theorem Painter.step_restore (p : Painter) (s : PainterState)
    (stk : List PainterState) (h : p.stack = s :: stk) :
    p.step PainterOp.restore = ⟨s, stk⟩ := by
  cases p with
  | mk st sk => cases h; rfl

theorem Painter.run_balanced_stack {ops : List PainterOp}
    (h : BalancedOps ops) : ∀ p : Painter, (p.run ops).stack = p.stack := by
  induction h with
  | nil => intro p; rfl
  | mutStep op hm _ ih =>
      intro p
      show ((p.step op).run _).stack = p.stack
      rw [ih (p.step op), Painter.step_mutation p op hm]
  | block hb hr ihb ihr =>
      intro p
      show ((p.step PainterOp.save).run _).stack = p.stack
      rw [Painter.run_append]
      set q := (p.step PainterOp.save).run _ with hq
      have hstk : q.stack = p.state :: p.stack := ihb (p.step PainterOp.save)
      show ((q.step PainterOp.restore).run _).stack = p.stack
      rw [ihr (q.step PainterOp.restore),
          Painter.step_restore q p.state p.stack hstk]

/-- C5: confirmed (the save stack itself lives inside the toolkits, so it
is modelled from the spec's atomic-snapshot discipline). For every
balanced sequence of transform, clip, and paint mutations — including
arbitrarily nested inner save/restore blocks — running `save`, the
sequence, then the matching `restore` returns the DrawingContext to
exactly the state it had before `save`: transform, clip, pen, brush,
opacity, and composition mode, together with the save stack. -/
theorem C5_save_restore (body : List PainterOp) (h : BalancedOps body)
    (p : Painter) :
    p.run (PainterOp.save :: (body ++ [PainterOp.restore])) = p := by
  show ((p.step PainterOp.save).run (body ++ [PainterOp.restore])) = p
  rw [Painter.run_append]
  set q := (p.step PainterOp.save).run body with hq
  have hstk : q.stack = p.state :: p.stack :=
    Painter.run_balanced_stack h (p.step PainterOp.save)
  show (q.step PainterOp.restore).run [] = p
  rw [Painter.step_restore q p.state p.stack hstk]
  rfl

/-- C5 witness: the save/restore round trip at a concrete painter and a
concrete balanced body containing a nested block. -/
theorem C5_save_restore_witness :
    Painter.run demoPainter (PainterOp.save :: (demoBody ++ [PainterOp.restore]))
      = demoPainter :=
  C5_save_restore demoBody
    (BalancedOps.mutStep (PainterOp.setOpacity (1 / 2)) rfl
      (BalancedOps.block
        (BalancedOps.mutStep (PainterOp.setPen (some penUnit)) rfl
          BalancedOps.nil)
        (BalancedOps.mutStep (PainterOp.translate 1 2) rfl BalancedOps.nil)))
    demoPainter

theorem qtc_qpainter_draw_no_paint (R : QtRasterizer) (p : QPainterVal)
    (hp : p.pen = none) (hb : p.brush = none) (op : QtDrawOp) :
    qtc_qpainter_draw R p op = p := by
  obtain ⟨pen, brush, aa, sm, canvas⟩ := p
  cases hp
  cases hb
  cases op <;> rfl

theorem qtc_qpainter_run_draws_no_paint (R : QtRasterizer) (p : QPainterVal)
    (hp : p.pen = none) (hb : p.brush = none) (ops : List QtDrawOp) :
    qtc_qpainter_run_draws R p ops = p := by
  induction ops with
  | nil => rfl
  | cons op ops ih =>
      show qtc_qpainter_run_draws R (qtc_qpainter_draw R p op) ops = p
      rw [qtc_qpainter_draw_no_paint R p hp hb op, ih]

/-- C9: confirmed (the fill/stroke rasterizers behind `QPainter::drawPath`
are not under `src/` and are universally quantified; that a draw call
fills only with an attached brush and strokes only with an attached pen is
modelled from the spec's draw-call semantics). A freshly created painter
has no pen and no brush and has antialiasing and smooth pixmap
resampling enabled, and any sequence of `drawPath`/`drawRect` calls issued
before the first `setPen`/`setBrush` leaves it — in particular every pixel
of its canvas — unchanged. -/
theorem C9_fresh_painter (img : QtCanvas) (R : QtRasterizer)
    (ops : List QtDrawOp) :
    (qtc_qpainter_create img).pen = none ∧
    (qtc_qpainter_create img).brush = none ∧
    (qtc_qpainter_create img).antialiasing = true ∧
    (qtc_qpainter_create img).smoothPixmapTransform = true ∧
    qtc_qpainter_run_draws R (qtc_qpainter_create img) ops
      = qtc_qpainter_create img ∧
    ∀ xy, (qtc_qpainter_run_draws R (qtc_qpainter_create img) ops).canvas xy
      = img xy := by
  have hrun : qtc_qpainter_run_draws R (qtc_qpainter_create img) ops
      = qtc_qpainter_create img :=
    qtc_qpainter_run_draws_no_paint R (qtc_qpainter_create img) rfl rfl ops
  exact ⟨rfl, rfl, rfl, rfl, hrun, fun xy => by rw [hrun]; rfl⟩

/-- C6: confirmed (the toolkit-side nullity conditions — a `QImage` with
invalid dimensions is null, `SkSurface::MakeRaster` rejects non-positive
dimensions, decoding and file reading may fail — are modelled from the
spec, the toolkits being outside `src/`). Every fallible constructor
returns the null handle (`none`) on failure — zero dimensions,
undecodable data, missing file — and otherwise returns a fully
constructed object; failure is signalled exclusively through the returned
handle. -/
theorem C6_null_on_failure :
    (∀ w h : ℕ, w = 0 ∨ h = 0 → qtc_qimage_create_rgba_premultiplied w h = none) ∧
    (∀ w h : ℕ, w = 0 ∨ h = 0 → qtc_qimage_create_rgba w h = none) ∧
    (∀ w h : ℕ, qtc_qimage_create_rgba_premultiplied w h = none ∨
        qtc_qimage_create_rgba_premultiplied w h = some ⟨w, h, true⟩) ∧
    (∀ w h : ℤ, w ≤ 0 ∨ h ≤ 0 →
        SkiaLegacy.skiac_surface_create_rgba_premultiplied w h = none) ∧
    (∀ w h : ℤ, w ≤ 0 ∨ h ≤ 0 →
        SkiaLegacy.skiac_surface_create_rgba w h = none) ∧
    SkiaLegacy.skiac_surface_create_data none = none ∧
    (∀ dec : List ℕ → Option SkImageVal,
        SkiaLegacy.skiac_surface_create_from_file dec none = none) ∧
    (∀ img s, SkiaLegacy.skiac_surface_create_data (some img) = some s →
        s = ⟨img.width, img.height, SkAlphaType.premul, some img⟩) ∧
    (∀ w h img, qtc_qimage_create_rgba_premultiplied w h = some img →
        img = ⟨w, h, true⟩) := by
  refine ⟨?_, ?_, ?_, ?_, ?_, rfl, fun _ => rfl, ?_, ?_⟩
  · intro w h h0
    simp [qtc_qimage_create_rgba_premultiplied, QImageVal.isNull]
    intro hw
    rcases h0 with h0 | h0
    · exact absurd h0 hw
    · exact h0
  · intro w h h0
    simp [qtc_qimage_create_rgba, QImageVal.isNull]
    intro hw
    rcases h0 with h0 | h0
    · exact absurd h0 hw
    · exact h0
  · intro w h
    by_cases h0 : w = 0 ∨ h = 0
    · left
      simp [qtc_qimage_create_rgba_premultiplied, QImageVal.isNull]
      intro hw
      rcases h0 with h0 | h0
      · exact absurd h0 hw
      · exact h0
    · right
      push_neg at h0
      simp [qtc_qimage_create_rgba_premultiplied, QImageVal.isNull, h0.1, h0.2]
  · intro w h h0
    simp [SkiaLegacy.skiac_surface_create_rgba_premultiplied,
      SkiaLegacy.skiac_surface_create, h0]
  · intro w h h0
    simp [SkiaLegacy.skiac_surface_create_rgba,
      SkiaLegacy.skiac_surface_create, h0]
  · intro img s hs
    by_cases h0 : img.width ≤ 0 ∨ img.height ≤ 0
    · simp [SkiaLegacy.skiac_surface_create_data,
        SkiaLegacy.skiac_surface_create, h0] at hs
    · simp [SkiaLegacy.skiac_surface_create_data,
        SkiaLegacy.skiac_surface_create, h0] at hs
      exact hs.symm
  · intro w h img hs
    by_cases h0 : w = 0 ∨ h = 0
    · have : qtc_qimage_create_rgba_premultiplied w h = none := by
        simp [qtc_qimage_create_rgba_premultiplied, QImageVal.isNull]
        intro hw
        rcases h0 with h0 | h0
        · exact absurd h0 hw
        · exact h0
      rw [this] at hs
      exact absurd hs (by simp)
    · push_neg at h0
      simp [qtc_qimage_create_rgba_premultiplied, QImageVal.isNull,
        h0.1, h0.2] at hs
      exact hs.symm

/-- C7: fails as stated. The Qt adapter's radial-gradient constructor
carries no focal-radius parameter at all: whatever the five arguments,
the constructed `QRadialGradient` has focal radius `0` (Qt's
center/radius/focal-point constructor), so no input realizes a focal
radius of `1`. -/
theorem C7_counterexample :
    ¬ ∃ cx cy fx fy r : ℚ,
        (qtc_qradialgradient_create cx cy fx fy r).focalRadius = 1 := by
  rintro ⟨cx, cy, fx, fy, r, h⟩
  simp [qtc_qradialgradient_create] at h

/-- C7 (amended): both Skia adapters forward the full two-point-conical
model — focal (start) point, focal radius, center (end) point, and outer
radius as four independent parameters — unchanged into the shader; the Qt
adapter preserves the focal point, the center and the outer radius (so it
is not collapsed to a concentric gradient) but fixes the focal radius at
`0`. -/
theorem C7_two_point_conical (fx fy fr cx cy r : ℚ) (colors : List ℕ)
    (positions : List ℚ) (tile : TileMode) (flags : ℕ) (m : SkMatrix) :
    SkiaBindings.skiac_shader_make_two_point_conical_gradient (fx, fy) fr
        (cx, cy) r colors positions tile flags m
      = ⟨(fx, fy), fr, (cx, cy), r, colors, positions, tile, flags, m⟩ ∧
    SkiaLegacy.skiac_shader_make_two_point_conical_gradient (fx, fy) fr
        (cx, cy) r colors positions tile flags m
      = ⟨(fx, fy), fr, (cx, cy), r, colors, positions, tile, flags, m⟩ ∧
    (qtc_qradialgradient_create cx cy fx fy r).cx = cx ∧
    (qtc_qradialgradient_create cx cy fx fy r).cy = cy ∧
    (qtc_qradialgradient_create cx cy fx fy r).fx = fx ∧
    (qtc_qradialgradient_create cx cy fx fy r).fy = fy ∧
    (qtc_qradialgradient_create cx cy fx fy r).radius = r ∧
    (qtc_qradialgradient_create cx cy fx fy r).focalRadius = 0 :=
  ⟨rfl, rfl, rfl, rfl, rfl, rfl, rfl, rfl⟩

/-- C8: fails as stated. A freshly created Qt path does not fill by the
winding rule: `qtc_qpainterpath_create` returns a default-constructed
`QPainterPath`, whose fill rule is Qt's even-odd default. -/
theorem C8_counterexample :
    qtc_qpainterpath_create.fillRule ≠ QtFillRule.winding := by
  decide

/-- C8 (amended): a path created by `skiac_path_create` has fill type
winding in both Skia adapters until `skiac_path_set_fill_type` is called,
but a path created by `qtc_qpainterpath_create` carries Qt's default
even-odd fill rule until `qtc_qpainterpath_set_fill_rule` is called; the
path-building calls never change the active rule. -/
theorem C8_default_fill_rule :
    SkiaBindings.skiac_path_create.fillType = SkFillType.winding ∧
    SkiaLegacy.skiac_path_create.fillType = SkFillType.winding ∧
    qtc_qpainterpath_create.fillRule = QtFillRule.oddEven ∧
    (∀ p r, (qtc_qpainterpath_set_fill_rule p r).fillRule = r) ∧
    (∀ p t, (SkiaBindings.skiac_path_set_fill_type p t).fillType = t) ∧
    (∀ p x y, (qtc_qpainterpath_move_to p x y).fillRule = p.fillRule) ∧
    (∀ p x y, (qtc_qpainterpath_line_to p x y).fillRule = p.fillRule) ∧
    (∀ p, (qtc_qpainterpath_close_path p).fillRule = p.fillRule) :=
  ⟨rfl, rfl, rfl, fun _ _ => rfl, fun _ _ => rfl, fun _ _ _ => rfl,
   fun _ _ _ => rfl, fun _ => rfl⟩

/-- C10: confirmed. `skiac_surface_read_pixels` returns `false` only on
the fallback path when `readPixels` fails, and then the out-struct is left
fully zeroed (`ptr = none`, `size = 0`, `allocated = false`) and the
freshly allocated fallback buffer has been freed (the heap is exactly as
before the call); every out-struct it produces has a pointer whenever
`allocated` is set; and `skiac_surface_data_delete` frees the buffer
exactly when `allocated` is true (its guard also checks the pointer, which
is always present in that case) and then resets all three fields. -/
theorem C10_read_pixels_cleanup :
    (∀ peek readOk newId sz heap,
        (skiac_surface_read_pixels peek readOk newId sz heap).1 = false →
        (skiac_surface_read_pixels peek readOk newId sz heap).2.1
            = ⟨none, 0, false⟩ ∧
        (skiac_surface_read_pixels peek readOk newId sz heap).2.2 = heap) ∧
    (∀ peek readOk newId sz heap,
        ((skiac_surface_read_pixels peek readOk newId sz heap).2.1).allocated
            = true →
        ((skiac_surface_read_pixels peek readOk newId sz heap).2.1).ptr.isSome
            = true) ∧
    (∀ d heap, (skiac_surface_data_delete d heap).1 = ⟨none, 0, false⟩) ∧
    (∀ p sz heap,
        (skiac_surface_data_delete ⟨some p, sz, true⟩ heap).2 = heap.erase p) ∧
    (∀ d heap, d.allocated = false →
        (skiac_surface_data_delete d heap).2 = heap) := by
  refine ⟨?_, ?_, fun d heap => ?_, fun p sz heap => rfl, ?_⟩
  · intro peek readOk newId sz heap hfail
    match peek, readOk with
    | some (addr, safeSize), _ =>
        simp [skiac_surface_read_pixels] at hfail
    | none, true =>
        simp [skiac_surface_read_pixels] at hfail
    | none, false =>
        refine ⟨rfl, ?_⟩
        simp [skiac_surface_read_pixels]
  · intro peek readOk newId sz heap halloc
    match peek, readOk with
    | some (addr, safeSize), _ => rfl
    | none, true => rfl
    | none, false => simp [skiac_surface_read_pixels] at halloc
  · cases hd : d.ptr <;> cases ha : d.allocated <;>
      simp [skiac_surface_data_delete, hd, ha]
  · intro d heap hfalse
    cases hd : d.ptr <;>
      simp [skiac_surface_data_delete, hd, hfalse]

end Resvg
